import Mathlib

/-!
Verification of the transform stage of an e-commerce ETL pipeline
(scripts/extract.py, scripts/transform.py).

The Python code manipulates dynamically typed polars DataFrames; the
embedding fixes the row schema that the pipeline actually produces
(the columns built by extract_from_api) and models each column value as
an Option over its declared type, with none standing for SQL/polars null.
Float64 columns are modelled as rational numbers, Int64 columns as Int,
Utf8 columns as String.  Python str.strip / polars str.strip_chars are
modelled over the whitespace predicate Char.isWhitespace, and
str.to_lowercase over ASCII letters.
-/

namespace ETL

/-- Whitespace predicate used by the strip operations. -/
def isWS (c : Char) : Bool := c.isWhitespace

/-- Strip whitespace from both ends of a character list (Python str.strip,
polars str.strip_chars with no argument). -/
def stripList (l : List Char) : List Char :=
  ((l.dropWhile isWS).reverse.dropWhile isWS).reverse

/-- Embedding of Python str.strip() / polars .str.strip_chars(). -/
def pyStrip (s : String) : String := ⟨stripList s.data⟩

/-- ASCII lower-casing of one character (the fragment of Unicode lower-casing
exercised by this pipeline's data). -/
def lowerChar (c : Char) : Char :=
  if 65 ≤ c.toNat ∧ c.toNat ≤ 90 then Char.ofNat (c.toNat + 32) else c

/-- Embedding of polars .str.to_lowercase(). -/
def pyLower (s : String) : String := ⟨s.data.map lowerChar⟩

/-! ### Calendar dates

Dates are represented by their day number relative to 1970-01-01
(Python datetime.date arithmetic is exact day arithmetic).  The
conversions between day numbers and Gregorian (y, m, d) triples follow
the standard civil-from-days / days-from-civil algorithms, with floor
division (Lean's Int division).
-/

/-- Gregorian leap-year test. -/
def isLeap (y : Int) : Bool := (y % 4 = 0 && y % 100 ≠ 0) || y % 400 = 0

/-- Number of days in a month. -/
def daysInMonth (y m : Int) : Int :=
  if m = 2 then (if isLeap y then 29 else 28)
  else if m = 4 ∨ m = 6 ∨ m = 9 ∨ m = 11 then 30
  else 31

/-- Convert a day number (days since 1970-01-01) to a Gregorian (y, m, d)
triple; standard civil-from-days algorithm. -/
def civilFromDays (z0 : Int) : Int × Int × Int :=
  let z := z0 + 719468
  let era := z / 146097
  let doe := z - era * 146097
  let yoe := (doe - doe / 1460 + doe / 36524 - doe / 146096) / 365
  let y := yoe + era * 400
  let doy := doe - (365 * yoe + yoe / 4 - yoe / 100)
  let mp := (5 * doy + 2) / 153
  let d := doy - (153 * mp + 2) / 5 + 1
  let m := mp + (if mp < 10 then 3 else -9)
  (y + (if m ≤ 2 then 1 else 0), m, d)

/-- Convert a Gregorian (y, m, d) triple to its day number; standard
days-from-civil algorithm, inverse of civilFromDays. -/
def daysFromCivil (y0 m d : Int) : Int :=
  let y := y0 - (if m ≤ 2 then 1 else 0)
  let era := y / 400
  let yoe := y - era * 400
  let doy := (153 * (m + (if 2 < m then -3 else 9)) + 2) / 5 + d - 1
  let doe := yoe * 365 + yoe / 4 - yoe / 100 + doy
  era * 146097 + doe - 719468

/-- Left-pad the decimal rendering of a natural number to the given width. -/
def padNum (w : Nat) (n : Nat) : String :=
  let s := toString n
  if s.length < w then ⟨List.replicate (w - s.length) '0'⟩ ++ s else s

/-- Render a day number as an ISO 8601 date string, as Python
date.isoformat() does (Python dates range over years 1..9999, all
rendered with a four-digit year). -/
def isoDate (z : Int) : String :=
  let c := civilFromDays z
  padNum 4 c.1.toNat ++ "-" ++ padNum 2 c.2.1.toNat ++ "-" ++ padNum 2 c.2.2.toNat

/-- Parse a nonempty all-digit character list as a natural number. -/
def digitsToNat? (l : List Char) : Option Nat :=
  if l ≠ [] ∧ l.all (fun c => c.isDigit) then
    some (l.foldl (fun acc c => acc * 10 + (c.toNat - 48)) 0)
  else none

/-- Split a character list on the dash character. -/
def splitDash : List Char → List Char → List (List Char)
  | [], acc => [acc.reverse]
  | c :: cs, acc =>
    if c = '-' then acc.reverse :: splitDash cs [] else splitDash cs (c :: acc)

/-- Embedding of polars .str.strptime(pl.Date, "%Y-%m-%d", strict=False)
applied to one value: parse a string as a calendar date, yielding its day
number, or none when the string is not a valid %Y-%m-%d date (with
strict=False a failed parse becomes a null, not an error). -/
def parseDate (s : String) : Option Int :=
  match splitDash s.data [] with
  | [ys, ms, ds] =>
    match digitsToNat? ys, digitsToNat? ms, digitsToNat? ds with
    | some y, some m, some d =>
      if 1 ≤ m ∧ m ≤ 12 ∧ 1 ≤ d ∧ (d : Int) ≤ daysInMonth y m ∧ 1 ≤ y ∧ y ≤ 9999
      then some (daysFromCivil y m d) else none
    | _, _, _ => none
  | _ => none

/-! ### Data model

The JSON payloads fetched from the API, as accessed by extract.py.
Every field read through dict.get is an Option; a user's "id" is read
with mandatory indexing (u["id"]) and so is a required field.
-/

/-- One entry of a cart's "products" list. -/
structure ProductJson where
  id : Option Int
  title : Option String
  price : Option Rat
  quantity : Option Int
  total : Option Rat
deriving DecidableEq, Repr, Inhabited

/-- One entry of the "carts" list. -/
structure CartJson where
  id : Option Int
  userId : Option Int
  total : Option Rat
  discountedTotal : Option Rat
  totalProducts : Option Int
  totalQuantity : Option Int
  products : Option (List ProductJson)
deriving DecidableEq, Repr, Inhabited

/-- The "address" object of a user. -/
structure AddressJson where
  city : Option String
deriving DecidableEq, Repr, Inhabited

/-- One entry of the "users" list; "id" is accessed as u["id"] in the code
and is therefore required. -/
structure UserJson where
  id : Int
  firstName : Option String
  lastName : Option String
  email : Option String
  address : Option AddressJson
  age : Option Int
  gender : Option String
deriving DecidableEq, Repr, Inhabited

/-- The carts payload: carts_payload.get("carts", ...) distinguishes a
present list from an absent key. -/
structure CartsPayload where
  carts : Option (List CartJson)
deriving DecidableEq, Repr, Inhabited

/-- The users payload. -/
structure UsersPayload where
  users : Option (List UserJson)
deriving DecidableEq, Repr, Inhabited

/-- A dynamically typed value of the age column: an integer as fetched
from the API, or a string after the normalizer's cast to Utf8. -/
inductive AgeVal where
  | int (n : Int)
  | str (s : String)
deriving DecidableEq, Repr, Inhabited

/-- One row of the flattened DataFrame.  The extract stage produces every
field except total_amount, which only exists after clean_and_transform;
before normalization the total_amount column is absent, modelled here as
none.  Column dtypes follow the casts at the end of extract_from_api. -/
structure Row where
  cart_id : Option Int
  user_id : Option Int
  cart_total : Option Rat
  cart_discounted_total : Option Rat
  cart_total_products : Option Int
  cart_total_quantity : Option Int
  product_id : Option Int
  product_title : Option String
  product_price : Option Rat
  product_quantity : Option Int
  product_total : Option Rat
  first_name : Option String
  last_name : Option String
  customer_name : Option String
  email : Option String
  city : Option String
  age : Option AgeVal
  gender : Option String
  order_date : Option String
  total_amount : Option Rat
deriving DecidableEq, Repr, Inhabited

/-! ### Flattener: extract_from_api (scripts/extract.py)

The HTTP fetch is an external collaborator; extract_from_api is modelled
from the point where the two JSON payloads are in hand.  Python's
datetime.utcnow().date() is the explicit today parameter (a day number).
-/

/-- Embedding of the user lookup dict user_map = {u["id"]: u for u in users}
followed by user_map.get(uid): building a dict from a list makes the last
entry with a given id win, so lookup returns the last matching user. -/
def lookupUser (users : List UserJson) (uid : Option Int) : Option UserJson :=
  uid.bind fun x => (users.filter (fun u => u.id == x)).getLast?

/-- Build one flattened row for a (cart, product) pair: the inner loop body
of extract_from_api, merging cart_base, the product fields and (when
user_map.get finds a match) the user fields.  first/last name use
user.get(...) or "", customer_name is f"{first} {last}".strip(); with no
matching user every customer field is None.  order_date and total_amount
do not exist yet. -/
def mkRawRow (users : List UserJson) (c : CartJson) (p : ProductJson) : Row :=
  let base : Row :=
    { cart_id := c.id
      user_id := c.userId
      cart_total := c.total
      cart_discounted_total := c.discountedTotal
      cart_total_products := c.totalProducts
      cart_total_quantity := c.totalQuantity
      product_id := p.id
      product_title := p.title
      product_price := p.price
      product_quantity := p.quantity
      product_total := p.total
      first_name := none
      last_name := none
      customer_name := none
      email := none
      city := none
      age := none
      gender := none
      order_date := none
      total_amount := none }
  match lookupUser users c.userId with
  | some u =>
    let first := u.firstName.getD ""
    let last := u.lastName.getD ""
    { base with
      first_name := some first
      last_name := some last
      customer_name := some (pyStrip (first ++ " " ++ last))
      email := u.email
      city := u.address.bind (fun a => a.city)
      age := u.age.map AgeVal.int
      gender := u.gender }
  | none => base

/-- The row list built by the two nested loops of extract_from_api:
for each cart (an absent "carts" key defaults to the empty list), for each
product of the cart (cart.get("products", []) or [] treats both an absent
key and an explicit null as the empty list), one row. -/
def rawRows (cp : CartsPayload) (up : UsersPayload) : List Row :=
  (cp.carts.getD []).flatMap fun c =>
    (c.products.getD []).map (mkRawRow (up.users.getD []) c)

/-- Comparison used to model Python's sorted() on the distinct cart ids.
The ids are Option Int column values; on ids that are all present this is
the usual order on Int (sorted() on a list mixing None with ints is not
defined in Python, and the claims about the date assignment are stated
for inputs whose carts all carry an id). -/
def leOI : Option Int → Option Int → Bool
  | none, _ => true
  | some _, none => false
  | some x, some y => x ≤ y

/-- Distinct cart ids of the flattened rows, sorted ascending:
df.select("cart_id").unique() followed by sorted(...).  The order in which
unique() lists the ids is irrelevant after sorting. -/
def sortedUniqueCartIds (rows : List Row) : List (Option Int) :=
  ((rows.map (fun r => r.cart_id)).dedup).mergeSort leOI

/-- The synthetic order date for a cart id: its zero-based position i in
the sorted distinct ids gives (today - timedelta(days=i % 30)).isoformat();
date_map.get misses yield None. -/
def dateFor (uniq : List (Option Int)) (today : Int) (cid : Option Int) : Option String :=
  (uniq.findIdx? (fun y => y == cid)).map fun i => isoDate (today - (i : Int) % 30)

/-- Embedding of extract_from_api on fetched payloads: flatten the carts,
return an empty frame when no rows were produced, otherwise assign the
synthetic order_date per cart id and lower-case + strip product_title
(both with_columns expressions read the pre-update columns).  The trailing
dtype casts of the source act on columns that already have the target
dtype and are identities in this typed model. -/
def extract_from_api (cp : CartsPayload) (up : UsersPayload) (today : Int) : List Row :=
  let rows := rawRows cp up
  if rows.isEmpty then [] else
    let uniq := sortedUniqueCartIds rows
    rows.map fun r =>
      { r with
        order_date := dateFor uniq today r.cart_id
        product_title := r.product_title.map (fun s => pyStrip (pyLower s)) }

/-! ### Normalizer: clean_and_transform (scripts/transform.py) -/

/-- Null-propagating product of a price column and a quantity column
(polars Float64 * Int64). -/
def optMul : Option Rat → Option Int → Option Rat
  | some x, some n => some (x * (n : Rat))
  | _, _ => none

/-- Per-row action of clean_and_transform.  The three with_columns calls
are applied in source order; within one call every expression reads the
columns as they were before that call.  The dtype casts on columns that
already carry the target dtype are identities.  map_elements skips nulls,
so the strip lambdas act on non-null strings only; the isinstance(x, str)
guards always hold on this schema's non-null values. -/
def ctRow (r : Row) : Row :=
  -- first with_columns: casts, strips, null imputation
  let r1 : Row :=
    { r with
      product_title := r.product_title.map pyStrip
      customer_name := some (match r.customer_name with
        | none => "No Data"
        | some s => pyStrip s)
      first_name := some (r.first_name.getD "No Data")
      last_name := some (r.last_name.getD "No Data")
      email := some (r.email.getD "No Data")
      city := some (r.city.getD "No Data")
      age := some (match r.age with
        | none => AgeVal.str "No Data"
        | some (AgeVal.int n) => AgeVal.str (toString n)
        | some (AgeVal.str s) => AgeVal.str s)
      gender := some (r.gender.getD "No Data") }
  -- second with_columns: derived total_amount; pl.when treats a null
  -- product_total as matching the is_null branch of the condition
  let r2 : Row :=
    { r1 with
      total_amount :=
        if r1.product_total = none ∨ r1.product_total = some 0
        then optMul r1.product_price r1.product_quantity
        else r1.product_total }
  -- third with_columns: lower-case and strip product_title again
  { r2 with product_title := r2.product_title.map (fun s => pyStrip (pyLower s)) }

/-- Embedding of clean_and_transform: the per-row column pipeline followed
by the filter dropping rows whose product_id is null. -/
def clean_and_transform (l : List Row) : List Row :=
  (l.map ctRow).filter fun r => r.product_id.isSome

/-! ### Aggregator: write_analytics (scripts/transform.py)

write_analytics first replaces the order_date string column with
str.strptime(pl.Date, "%Y-%m-%d", strict=False) — a per-value parse whose
failures become nulls — and then runs three DuckDB GROUP BY queries over
the frame.  An SQL GROUP BY puts all NULL keys into one group; SUM skips
NULL addends and is NULL on an empty or all-NULL group; COUNT(DISTINCT c)
counts distinct non-NULL values.  ORDER BY uses NULLS LAST (DuckDB's
default null ordering) in both directions.  The CSV writing side effects
are outside the model; each query is modelled as a function from the row
list to the resulting table.
-/

/-- Parsed order_date of a row (null order_date parses to null). -/
def parsedDate (r : Row) : Option Int := r.order_date.bind parseDate

/-- SQL SUM over a column: NULL inputs are skipped and an empty or
all-NULL multiset sums to NULL. -/
def sqlSum (xs : List (Option Rat)) : Option Rat :=
  match xs.filterMap id with
  | [] => none
  | vs => some vs.sum

/-- Ascending comparison on nullable dates, NULLS LAST. -/
def dateAscLE : Option Int × Option Rat → Option Int × Option Rat → Bool
  | (some x, _), (some y, _) => x ≤ y
  | (some _, _), (none, _) => true
  | (none, _), (some _, _) => false
  | (none, _), (none, _) => true

/-- Embedding of the daily_sales query:
SELECT order_date, SUM(total_amount) FROM sales GROUP BY order_date
ORDER BY order_date.  Keys are the distinct parsed dates (including the
NULL key when some row's date is null or unparseable). -/
def daily_sales (l : List Row) : List (Option Int × Option Rat) :=
  let keys := (l.map parsedDate).dedup
  (keys.map fun k =>
    (k, sqlSum ((l.filter fun r => parsedDate r == k).map fun r => r.total_amount))).mergeSort
    dateAscLE

/-- One row of the customer_summary table. -/
structure CSRow where
  customer_id : Option Int
  customer_name : String
  total_orders : Nat
  total_spent : Option Rat
deriving DecidableEq, Repr, Inhabited

/-- The grouping key of the customer_summary query.  In the query text
GROUP BY customer_id, customer_name the first name is the SELECT alias for
user_id and the second resolves to the base column of sales (an input
column takes precedence over a same-named SELECT alias). -/
def csKey (r : Row) : Option Int × Option String := (r.user_id, r.customer_name)

/-- The CASE expression of the customer_summary query, substituting the
literal for a NULL or empty name. -/
def substName : Option String → String
  | none => "No Data"
  | some s => if s = "" then "No Data" else s

/-- Descending comparison on total_spent, NULLS LAST. -/
def spentDescLE (a b : CSRow) : Bool :=
  match a.total_spent, b.total_spent with
  | some x, some y => y ≤ x
  | some _, none => true
  | none, some _ => false
  | none, none => true

/-- Embedding of the customer_summary query:
SELECT user_id AS customer_id, CASE ... END AS customer_name,
COUNT(DISTINCT cart_id) AS total_orders, SUM(total_amount) AS total_spent
FROM sales GROUP BY customer_id, customer_name ORDER BY total_spent DESC. -/
def customer_summary (l : List Row) : List CSRow :=
  let keys := (l.map csKey).dedup
  (keys.map fun k =>
    let rows := l.filter fun r => csKey r == k
    { customer_id := k.1
      customer_name := substName k.2
      total_orders := ((rows.filterMap fun r => r.cart_id).dedup).length
      total_spent := sqlSum (rows.map fun r => r.total_amount) }).mergeSort
    spentDescLE

/-! ### Derived definitions used by the statements -/

/-- Strict version of the cart-id order. -/
def ltOI (a b : Option Int) : Bool := !(leOI b a)

/-- The customer_name a row receives from a user lookup result. -/
def nameOfUser (ou : Option UserJson) : Option String :=
  ou.map fun u => pyStrip (u.firstName.getD "" ++ " " ++ u.lastName.getD "")

/-- The per-row post-processing of extract_from_api (synthetic order_date
plus product_title cleaning). -/
def postRow (cp : CartsPayload) (up : UsersPayload) (today : Int) (r : Row) : Row :=
  { r with
    order_date := dateFor (sortedUniqueCartIds (rawRows cp up)) today r.cart_id
    product_title := r.product_title.map fun s => pyStrip (pyLower s) }

/-- The table entry the customer summary builds for a grouping key. -/
def csEntry (l : List Row) (k : Option Int × Option String) : CSRow :=
  { customer_id := k.1
    customer_name := substName k.2
    total_orders :=
      (((l.filter fun r => csKey r == k).filterMap fun r => r.cart_id).dedup).length
    total_spent := sqlSum ((l.filter fun r => csKey r == k).map fun r => r.total_amount) }

/-- Functional dependence of customer_name on user_id within a row list. -/
def csFD (l : List Row) : Prop :=
  ∀ r ∈ l, ∀ s ∈ l, r.user_id = s.user_id → r.customer_name = s.customer_name

/-! ### Concrete inputs used by the witnesses and counterexamples -/

/-- A row with every column null. -/
def blankRow : Row :=
  ⟨none, none, none, none, none, none, none, none, none, none,
   none, none, none, none, none, none, none, none, none, none⟩

/-- A row whose customer_name is whitespace only (empty after trimming). -/
def c1Row : Row := { blankRow with customer_name := some " ", product_id := some 1 }

def c1wProd : ProductJson := ⟨some 1, none, none, none, none⟩

/-- A cart whose userId matches no user. -/
def c1wCart : CartJson := ⟨some 7, some 99, none, none, none, none, some [c1wProd]⟩

def c1wCp : CartsPayload := ⟨some [c1wCart]⟩

def c1wUp : UsersPayload := ⟨some []⟩

/-- The normalized output row of the one-cart, no-users pipeline. -/
def c1wOut : Row := ctRow (postRow c1wCp c1wUp 0 (mkRawRow [] c1wCart c1wProd))

/-- A retained row with product_total and product_price both null. -/
def c3Row : Row :=
  { blankRow with product_id := some 1, product_quantity := some 1 }

def c3wRow : Row :=
  { blankRow with
    product_id := some 1
    product_price := some 3
    product_quantity := some 2 }

def c3wOut : Row := ctRow c3wRow

/-- A row with an unparseable order_date. -/
def c4Row : Row :=
  { blankRow with order_date := some "garbage", total_amount := some 5 }

/-- A row with a well-formed order_date. -/
def c4gRow : Row :=
  { blankRow with order_date := some "2024-01-15", total_amount := some 3 }

/-- Day number of 2024-01-15. -/
def d4 : Int := daysFromCivil 2024 1 15

def c5P : ProductJson := ⟨some 1, none, none, none, none⟩

def c5Cart (i : Int) : CartJson := ⟨some i, none, none, none, none, none, some [c5P]⟩

/-- Carts with ids 5, 1, 3 in fetch order. -/
def c5Cp : CartsPayload := ⟨some [c5Cart 5, c5Cart 1, c5Cart 3]⟩

def c5Up : UsersPayload := ⟨some []⟩

/-- The extract output row of the cart with id 5. -/
def c5Out : Row := postRow c5Cp c5Up 20000 (mkRawRow [] (c5Cart 5) c5P)

def c6wRow : Row :=
  { blankRow with
    product_id := some 1
    product_total := some 0
    product_price := some 5
    product_quantity := some 2 }

def c6wOut : Row := ctRow c6wRow

def c7r1 : Row :=
  { blankRow with
    user_id := some 1
    customer_name := some "Jo Doe"
    cart_id := some 1
    total_amount := some 10 }

def c7r2 : Row :=
  { blankRow with
    user_id := some 1
    customer_name := some "Jo Doe"
    cart_id := some 2
    total_amount := some 7 }

def c7l : List Row := [c7r1, c7r2]

def c7E : CSRow := csEntry c7l (some 1, some "Jo Doe")

def c8aRow : Row := { blankRow with product_id := some 3 }

def c8bRow : Row := blankRow

/-- A matched user with both name fields absent. -/
def c10U : UserJson := ⟨10, none, none, none, none, none, none⟩

def c10C : CartJson := ⟨some 1, some 10, none, none, none, none, some []⟩

def c10P : ProductJson := ⟨none, none, none, none, none⟩

def c10R : Row := mkRawRow [c10U] c10C c10P

/-- A matched user with firstName present and lastName absent. -/
def c10U2 : UserJson := ⟨11, some "Jo", none, none, none, none, none⟩

def c10C2 : CartJson := ⟨some 2, some 11, none, none, none, none, some []⟩

def c10R2 : Row := mkRawRow [c10U2] c10C2 c10P

/-! ### Lemmas about the string primitives -/

theorem dropWhile_idem {α : Type} (p : α → Bool) (l : List α) :
    (l.dropWhile p).dropWhile p = l.dropWhile p := by
  induction l with
  | nil => rfl
  | cons a t ih => by_cases h : p a <;> simp [List.dropWhile_cons, h, ih]

theorem dropWhile_of_head_false {α : Type} {p : α → Bool} {l : List α} {a : α}
    (hh : l.head? = some a) (hp : p a = false) : l.dropWhile p = l := by
  cases l with
  | nil => rfl
  | cons b t =>
    simp only [List.head?_cons, Option.some.injEq] at hh
    subst hh
    simp [List.dropWhile_cons, hp]

theorem head_dropWhile_false {α : Type} {p : α → Bool} {l : List α} {a : α}
    (h : (l.dropWhile p).head? = some a) : p a = false := by
  have hm := List.head?_dropWhile_not p l
  rw [h] at hm
  exact hm

theorem getLast?_dropWhile {α : Type} {p : α → Bool} {l : List α}
    (h : l.dropWhile p ≠ []) : (l.dropWhile p).getLast? = l.getLast? := by
  obtain ⟨t, ht⟩ := List.dropWhile_suffix (l := l) p
  conv_rhs => rw [← ht]
  rw [List.getLast?_append]
  cases hd : (l.dropWhile p).getLast? with
  | none => exact absurd (List.getLast?_eq_none_iff.mp hd) h
  | some a => rfl

theorem stripList_dropWhile (l : List Char) :
    (stripList l).dropWhile isWS = stripList l := by
  unfold stripList
  set A := l.dropWhile isWS with hA
  set C := A.reverse.dropWhile isWS with hC
  by_cases hCe : C = []
  · simp [hCe]
  · have hrev : C.reverse.head? = C.getLast? := List.head?_reverse C
    have hCl : C.getLast? = A.reverse.getLast? := getLast?_dropWhile hCe
    have hAr : A.reverse.getLast? = A.head? := List.getLast?_reverse A
    have hAne : A ≠ [] := by
      intro hAe
      apply hCe
      rw [hC, hAe]
      rfl
    obtain ⟨a, ha⟩ : ∃ a, A.head? = some a := by
      cases hh : A.head? with
      | none => exact absurd (List.head?_eq_none_iff.mp hh) hAne
      | some a => exact ⟨a, rfl⟩
    have hpa : isWS a = false := head_dropWhile_false (p := isWS) (l := l) (by rw [← hA, ha])
    exact dropWhile_of_head_false (by rw [hrev, hCl, hAr, ha]) hpa

theorem stripList_reverse_dropWhile (l : List Char) :
    (stripList l).reverse.dropWhile isWS = (stripList l).reverse := by
  unfold stripList
  rw [List.reverse_reverse]
  exact dropWhile_idem isWS _

theorem stripList_idem (l : List Char) : stripList (stripList l) = stripList l := by
  conv_lhs => rw [stripList, stripList_dropWhile, stripList_reverse_dropWhile,
    List.reverse_reverse]

theorem pyStrip_idem (s : String) : pyStrip (pyStrip s) = pyStrip s :=
  congrArg String.mk (stripList_idem s.data)

theorem lowerChar_facts (c : Char) :
    lowerChar (lowerChar c) = lowerChar c ∧ isWS (lowerChar c) = isWS c := by
  by_cases h : 65 ≤ c.toNat ∧ c.toNat ≤ 90
  · obtain ⟨h1, h2⟩ := h
    have hc : Char.ofNat c.toNat = c := Char.ofNat_toNat c
    rw [← hc]
    generalize c.toNat = n at h1 h2 ⊢
    interval_cases n <;> exact ⟨by decide, by decide⟩
  · have hcc : lowerChar c = c := by
      unfold lowerChar
      exact if_neg h
    rw [hcc]
    exact ⟨hcc, rfl⟩

theorem lowerChar_idem (c : Char) : lowerChar (lowerChar c) = lowerChar c :=
  (lowerChar_facts c).1

theorem isWS_lowerChar (c : Char) : isWS (lowerChar c) = isWS c :=
  (lowerChar_facts c).2

theorem pyLower_idem (s : String) : pyLower (pyLower s) = pyLower s := by
  apply congrArg String.mk
  show (s.data.map lowerChar).map lowerChar = s.data.map lowerChar
  rw [List.map_map]
  exact List.map_congr_left fun a _ => lowerChar_idem a

theorem stripList_map_lower (l : List Char) :
    stripList (l.map lowerChar) = (stripList l).map lowerChar := by
  have hws : (isWS ∘ lowerChar) = isWS := funext fun c => isWS_lowerChar c
  unfold stripList
  rw [List.dropWhile_map, hws, ← List.map_reverse, List.dropWhile_map, hws,
    ← List.map_reverse]

theorem pyStrip_pyLower_comm (s : String) :
    pyStrip (pyLower s) = pyLower (pyStrip s) :=
  congrArg String.mk (stripList_map_lower s.data)

/-- Idempotence of one normalizer pass over product_title composed with a
second pass: strip, then (lower-case and strip), twice, equals once. -/
theorem titleFun_idem (s : String) :
    pyStrip (pyLower (pyStrip (pyStrip (pyLower (pyStrip s))))) =
      pyStrip (pyLower (pyStrip s)) := by
  have hX : pyStrip (pyLower (pyStrip s)) = pyLower (pyStrip s) := by
    rw [pyStrip_pyLower_comm (pyStrip s), pyStrip_idem s]
  rw [hX, hX, pyLower_idem (pyStrip s)]
  exact hX

theorem pyStrip_noData : pyStrip "No Data" = "No Data" := by decide

/-! ### How ctRow acts on each column -/

theorem row_ext (a b : Row)
    (h1 : a.cart_id = b.cart_id) (h2 : a.user_id = b.user_id)
    (h3 : a.cart_total = b.cart_total)
    (h4 : a.cart_discounted_total = b.cart_discounted_total)
    (h5 : a.cart_total_products = b.cart_total_products)
    (h6 : a.cart_total_quantity = b.cart_total_quantity)
    (h7 : a.product_id = b.product_id) (h8 : a.product_title = b.product_title)
    (h9 : a.product_price = b.product_price)
    (h10 : a.product_quantity = b.product_quantity)
    (h11 : a.product_total = b.product_total)
    (h12 : a.first_name = b.first_name) (h13 : a.last_name = b.last_name)
    (h14 : a.customer_name = b.customer_name) (h15 : a.email = b.email)
    (h16 : a.city = b.city) (h17 : a.age = b.age) (h18 : a.gender = b.gender)
    (h19 : a.order_date = b.order_date) (h20 : a.total_amount = b.total_amount) :
    a = b := by
  cases a
  cases b
  simp_all

theorem ctRow_cart_id (r : Row) : (ctRow r).cart_id = r.cart_id := rfl

theorem ctRow_user_id (r : Row) : (ctRow r).user_id = r.user_id := rfl

theorem ctRow_cart_total (r : Row) : (ctRow r).cart_total = r.cart_total := rfl

theorem ctRow_cart_discounted_total (r : Row) :
    (ctRow r).cart_discounted_total = r.cart_discounted_total := rfl

theorem ctRow_cart_total_products (r : Row) :
    (ctRow r).cart_total_products = r.cart_total_products := rfl

theorem ctRow_cart_total_quantity (r : Row) :
    (ctRow r).cart_total_quantity = r.cart_total_quantity := rfl

theorem ctRow_product_id (r : Row) : (ctRow r).product_id = r.product_id := rfl

theorem ctRow_product_price (r : Row) :
    (ctRow r).product_price = r.product_price := rfl

theorem ctRow_product_quantity (r : Row) :
    (ctRow r).product_quantity = r.product_quantity := rfl

theorem ctRow_product_total (r : Row) :
    (ctRow r).product_total = r.product_total := rfl

theorem ctRow_order_date (r : Row) : (ctRow r).order_date = r.order_date := rfl

theorem ctRow_customer_name (r : Row) :
    (ctRow r).customer_name =
      some (match r.customer_name with
        | none => "No Data"
        | some s => pyStrip s) := rfl

theorem ctRow_first_name (r : Row) :
    (ctRow r).first_name = some (r.first_name.getD "No Data") := rfl

theorem ctRow_last_name (r : Row) :
    (ctRow r).last_name = some (r.last_name.getD "No Data") := rfl

theorem ctRow_email (r : Row) :
    (ctRow r).email = some (r.email.getD "No Data") := rfl

theorem ctRow_city (r : Row) :
    (ctRow r).city = some (r.city.getD "No Data") := rfl

theorem ctRow_gender (r : Row) :
    (ctRow r).gender = some (r.gender.getD "No Data") := rfl

theorem ctRow_age (r : Row) :
    (ctRow r).age =
      some (match r.age with
        | none => AgeVal.str "No Data"
        | some (AgeVal.int n) => AgeVal.str (toString n)
        | some (AgeVal.str s) => AgeVal.str s) := rfl

theorem ctRow_product_title (r : Row) :
    (ctRow r).product_title =
      r.product_title.map fun s => pyStrip (pyLower (pyStrip s)) := by
  show (r.product_title.map pyStrip).map (fun s => pyStrip (pyLower s)) = _
  cases r.product_title <;> rfl

theorem ctRow_total_amount (r : Row) :
    (ctRow r).total_amount =
      if r.product_total = none ∨ r.product_total = some 0
      then optMul r.product_price r.product_quantity
      else r.product_total := rfl

/-! ### Idempotence of the per-row normalization -/

theorem ctRow_idem (r : Row) : ctRow (ctRow r) = ctRow r := by
  apply row_ext
  · simp only [ctRow_cart_id]
  · simp only [ctRow_user_id]
  · simp only [ctRow_cart_total]
  · simp only [ctRow_cart_discounted_total]
  · simp only [ctRow_cart_total_products]
  · simp only [ctRow_cart_total_quantity]
  · simp only [ctRow_product_id]
  · simp only [ctRow_product_title]
    cases r.product_title with
    | none => rfl
    | some s => simp [titleFun_idem s]
  · simp only [ctRow_product_price]
  · simp only [ctRow_product_quantity]
  · simp only [ctRow_product_total]
  · simp only [ctRow_first_name, Option.getD_some]
  · simp only [ctRow_last_name, Option.getD_some]
  · simp only [ctRow_customer_name]
    cases r.customer_name with
    | none => simp [pyStrip_noData]
    | some s => simp [pyStrip_idem s]
  · simp only [ctRow_email, Option.getD_some]
  · simp only [ctRow_city, Option.getD_some]
  · simp only [ctRow_age]
    cases r.age with
    | none => rfl
    | some a => cases a <;> rfl
  · simp only [ctRow_gender, Option.getD_some]
  · simp only [ctRow_order_date]
  · simp only [ctRow_total_amount, ctRow_product_total, ctRow_product_price,
      ctRow_product_quantity]

/-! ### Structure of clean_and_transform -/

/-- The normalizer equals: drop the rows with a null product_id, then apply
the per-row pipeline.  The filter and the map commute because ctRow leaves
product_id unchanged. -/
theorem ct_filter_comm (l : List Row) :
    clean_and_transform l =
      (l.filter fun r => r.product_id.isSome).map ctRow := by
  unfold clean_and_transform
  rw [List.filter_map]
  rfl

theorem mem_ct (l : List Row) (x : Row) (hx : x ∈ clean_and_transform l) :
    ∃ y ∈ l, y.product_id.isSome ∧ ctRow y = x := by
  rw [ct_filter_comm] at hx
  obtain ⟨y, hy, hxy⟩ := List.mem_map.mp hx
  exact ⟨y, (List.mem_filter.mp hy).1, (List.mem_filter.mp hy).2, hxy⟩

theorem ct_idem_list (l : List Row) :
    clean_and_transform (clean_and_transform l) = clean_and_transform l := by
  have hfix : ∀ x ∈ clean_and_transform l, ctRow x = id x := by
    intro x hx
    obtain ⟨y, _, _, hxy⟩ := mem_ct l x hx
    rw [← hxy]
    exact ctRow_idem y
  have hall : ∀ x ∈ clean_and_transform l, x.product_id.isSome = true := by
    intro x hx
    unfold clean_and_transform at hx
    exact (List.mem_filter.mp hx).2
  show ((clean_and_transform l).map ctRow).filter (fun r => r.product_id.isSome) =
    clean_and_transform l
  rw [List.map_congr_left hfix, List.map_id]
  exact List.filter_eq_self.mpr hall

/-! ### Structure of extract_from_api -/

theorem mkRawRow_cart_id (users : List UserJson) (c : CartJson) (p : ProductJson) :
    (mkRawRow users c p).cart_id = c.id := by
  unfold mkRawRow
  cases lookupUser users c.userId <;> rfl

theorem mkRawRow_user_id (users : List UserJson) (c : CartJson) (p : ProductJson) :
    (mkRawRow users c p).user_id = c.userId := by
  unfold mkRawRow
  cases lookupUser users c.userId <;> rfl

theorem mkRawRow_customer_name (users : List UserJson) (c : CartJson) (p : ProductJson) :
    (mkRawRow users c p).customer_name = nameOfUser (lookupUser users c.userId) := by
  unfold mkRawRow nameOfUser
  cases lookupUser users c.userId <;> rfl

theorem extract_eq (cp : CartsPayload) (up : UsersPayload) (today : Int) :
    extract_from_api cp up today =
      if (rawRows cp up).isEmpty then []
      else (rawRows cp up).map (postRow cp up today) := rfl

theorem postRow_cart_id (cp up today) (r : Row) :
    (postRow cp up today r).cart_id = r.cart_id := rfl

theorem postRow_user_id (cp up today) (r : Row) :
    (postRow cp up today r).user_id = r.user_id := rfl

theorem postRow_customer_name (cp up today) (r : Row) :
    (postRow cp up today r).customer_name = r.customer_name := rfl

theorem postRow_order_date (cp up today) (r : Row) :
    (postRow cp up today r).order_date =
      dateFor (sortedUniqueCartIds (rawRows cp up)) today r.cart_id := rfl

theorem mem_extract {cp up today} {r : Row} (h : r ∈ extract_from_api cp up today) :
    ∃ r0 ∈ rawRows cp up, postRow cp up today r0 = r := by
  rw [extract_eq] at h
  split at h
  · cases h
  · exact List.mem_map.mp h

theorem mem_rawRows {cp up} {r0 : Row} (h : r0 ∈ rawRows cp up) :
    ∃ c ∈ cp.carts.getD [], ∃ p ∈ c.products.getD [],
      mkRawRow (up.users.getD []) c p = r0 := by
  unfold rawRows at h
  obtain ⟨c, hc, hp⟩ := List.mem_flatMap.mp h
  obtain ⟨p, hp, hmk⟩ := List.mem_map.mp hp
  exact ⟨c, hc, p, hp, hmk⟩

/-! ### The order on nullable cart ids -/

theorem leOI_refl (a : Option Int) : leOI a a = true := by
  cases a <;> simp [leOI]

theorem leOI_trans (a b c : Option Int) (h1 : leOI a b = true)
    (h2 : leOI b c = true) : leOI a c = true := by
  cases a <;> cases b <;> cases c <;> simp_all [leOI] <;> omega

theorem leOI_total (a b : Option Int) : (leOI a b || leOI b a) = true := by
  cases a <;> cases b <;> simp [leOI] <;> omega

theorem leOI_antisymm (a b : Option Int) (h1 : leOI a b = true)
    (h2 : leOI b a = true) : a = b := by
  cases a <;> cases b <;> simp_all [leOI]
  omega

/-- In a sorted duplicate-free list, the index found for an element equals
the number of strictly smaller elements: the zero-based rank used by the
synthetic date assignment coincides with counting smaller distinct ids. -/
theorem findIdx_count_sorted (l : List (Option Int))
    (hs : List.Pairwise (fun a b => leOI a b = true) l) (hn : l.Nodup) :
    ∀ x ∈ l, l.findIdx? (fun y => y == x) =
      some ((l.filter fun y => ltOI y x).length) := by
  induction l with
  | nil => intro x hx; cases hx
  | cons a t ih =>
    intro x hx
    have hpa : ∀ b ∈ t, leOI a b = true := (List.pairwise_cons.mp hs).1
    have hpt := (List.pairwise_cons.mp hs).2
    have hna : a ∉ t := (List.nodup_cons.mp hn).1
    have hnt := (List.nodup_cons.mp hn).2
    by_cases hxa : x = a
    · subst hxa
      have hfilter : (x :: t).filter (fun y => ltOI y x) = [] := by
        rw [List.filter_eq_nil_iff]
        intro b hb
        rcases List.mem_cons.mp hb with hb | hb
        · subst hb
          simp [ltOI, leOI_refl]
        · simp [ltOI, hpa b hb]
      rw [hfilter]
      simp [List.findIdx?_cons]
    · have hxt : x ∈ t := by
        rcases List.mem_cons.mp hx with h | h
        · exact absurd h hxa
        · exact h
      have hax : (a == x) = false := by
        simp only [beq_eq_false_iff_ne, ne_eq]
        intro h
        exact hxa (h.symm)
      have hlt : ltOI a x = true := by
        have hle : leOI a x = true := hpa x hxt
        by_cases hxa2 : leOI x a = true
        · exact absurd (leOI_antisymm x a hxa2 hle) hxa
        · simp [ltOI]
          exact Bool.eq_false_iff.mpr hxa2
      rw [List.findIdx?_cons, if_neg (by simp [hax]), List.findIdx?_succ,
        ih hpt hnt x hxt]
      simp [List.filter_cons, hlt]

/-- The date assigned to a cart id present among the rows: today minus
(rank mod 30) days, where the rank is the number of distinct cart ids
strictly smaller than it. -/
theorem dateFor_rank (rows : List Row) (today : Int) (cid : Option Int)
    (hmem : cid ∈ ((rows.map fun s => s.cart_id).dedup)) :
    dateFor (sortedUniqueCartIds rows) today cid =
      some (isoDate (today -
        ((((rows.map fun s => s.cart_id).dedup.filter fun y => ltOI y cid).length : Int) % 30))) := by
  unfold dateFor sortedUniqueCartIds
  set D := (rows.map fun s => s.cart_id).dedup with hD
  have hperm : (D.mergeSort leOI).Perm D := List.mergeSort_perm D leOI
  have hsor : List.Pairwise (fun a b => leOI a b = true) (D.mergeSort leOI) :=
    List.sorted_mergeSort leOI_trans leOI_total D
  have hnd : (D.mergeSort leOI).Nodup := hperm.nodup_iff.mpr (List.nodup_dedup _)
  have hm : cid ∈ D.mergeSort leOI := hperm.mem_iff.mpr hmem
  rw [findIdx_count_sorted _ hsor hnd cid hm]
  have hlen : ((D.mergeSort leOI).filter fun y => ltOI y cid).length =
      (D.filter fun y => ltOI y cid).length :=
    (List.Perm.filter _ hperm).length_eq
  simp [hlen]

/-! ### The customer name is a function of the user id

Every row the flattener emits takes its customer fields from the lookup of
its own user_id, so two rows agreeing on user_id agree on customer_name.
This invariant survives the normalizer and is what makes the SQL GROUP BY
of the customer summary insensitive to whether the name component of the
key is the raw column or the CASE-substituted alias.
-/

theorem rawRows_fd {cp up} {r : Row} (h : r ∈ rawRows cp up) :
    r.customer_name = nameOfUser (lookupUser (up.users.getD []) r.user_id) := by
  obtain ⟨c, _, p, _, hmk⟩ := mem_rawRows h
  rw [← hmk, mkRawRow_customer_name, mkRawRow_user_id]

theorem extract_fd {cp up today} {r : Row} (h : r ∈ extract_from_api cp up today) :
    r.customer_name = nameOfUser (lookupUser (up.users.getD []) r.user_id) := by
  obtain ⟨r0, hr0, hpost⟩ := mem_extract h
  rw [← hpost, postRow_customer_name, postRow_user_id]
  exact rawRows_fd hr0

theorem pipeline_fd (cp : CartsPayload) (up : UsersPayload) (today : Int) :
    csFD (clean_and_transform (extract_from_api cp up today)) := by
  intro r hr s hs hus
  obtain ⟨y, hy, _, hyr⟩ := mem_ct _ r hr
  obtain ⟨z, hz, _, hzs⟩ := mem_ct _ s hs
  have hyz : y.customer_name = z.customer_name := by
    rw [extract_fd hy, extract_fd hz]
    have : y.user_id = z.user_id := by
      have h1 : (ctRow y).user_id = (ctRow z).user_id := by rw [hyr, hzs, hus]
      rwa [ctRow_user_id, ctRow_user_id] at h1
    rw [this]
  rw [← hyr, ← hzs, ctRow_customer_name, ctRow_customer_name, hyz]

/-! ### Shape of the aggregation tables -/

theorem daily_sales_entry {l : List Row} {e : Option Int × Option Rat}
    (h : e ∈ daily_sales l) :
    e.2 = sqlSum ((l.filter fun r => parsedDate r == e.1).map fun r => r.total_amount) := by
  unfold daily_sales at h
  rw [List.mem_mergeSort] at h
  obtain ⟨k, _, hk⟩ := List.mem_map.mp h
  rw [← hk]

theorem daily_sales_key_mem {l : List Row} {k : Option Int}
    (h : k ∈ (l.map parsedDate).dedup) :
    (k, sqlSum ((l.filter fun r => parsedDate r == k).map fun r => r.total_amount)) ∈
      daily_sales l := by
  unfold daily_sales
  rw [List.mem_mergeSort]
  exact List.mem_map.mpr ⟨k, h, rfl⟩

theorem customer_summary_eq (l : List Row) :
    customer_summary l = ((l.map csKey).dedup.map (csEntry l)).mergeSort spentDescLE := rfl

theorem customer_summary_entry {l : List Row} {e : CSRow}
    (h : e ∈ customer_summary l) :
    ∃ k ∈ (l.map csKey).dedup, csEntry l k = e := by
  rw [customer_summary_eq, List.mem_mergeSort] at h
  exact List.mem_map.mp h

theorem customer_summary_key_mem {l : List Row} {k : Option Int × Option String}
    (h : k ∈ (l.map csKey).dedup) : csEntry l k ∈ customer_summary l := by
  rw [customer_summary_eq, List.mem_mergeSort]
  exact List.mem_map.mpr ⟨k, h, rfl⟩

theorem spentDescLE_trans (a b c : CSRow) (h1 : spentDescLE a b = true)
    (h2 : spentDescLE b c = true) : spentDescLE a c = true := by
  unfold spentDescLE at *
  cases ha : a.total_spent <;> cases hb : b.total_spent <;> cases hc : c.total_spent <;>
    simp_all
  exact le_trans h2 h1

theorem spentDescLE_total (a b : CSRow) :
    (spentDescLE a b || spentDescLE b a) = true := by
  unfold spentDescLE
  cases ha : a.total_spent <;> cases hb : b.total_spent <;> simp_all
  exact le_total _ _

theorem customer_summary_sorted (l : List Row) :
    List.Pairwise (fun a b => spentDescLE a b = true) (customer_summary l) := by
  rw [customer_summary_eq]
  exact List.sorted_mergeSort spentDescLE_trans spentDescLE_total _

/-- Under functional dependence of the name on the user id, grouping by the
raw (user_id, customer_name) key selects the same rows as grouping by
(user_id, substituted name): the two readings of the GROUP BY coincide. -/
theorem csFilter_eq {l : List Row} (hfd : csFD l)
    {k : Option Int × Option String} (hk : k ∈ (l.map csKey).dedup) :
    (l.filter fun r => csKey r == k) =
      l.filter fun r => r.user_id == k.1 && substName r.customer_name == substName k.2 := by
  obtain ⟨r0, hr0, hk0⟩ := List.mem_map.mp (List.mem_dedup.mp hk)
  apply List.filter_congr
  intro x hx
  rw [Bool.eq_iff_iff]
  simp only [beq_iff_eq, Bool.and_eq_true]
  constructor
  · intro h
    have h1 : x.user_id = k.1 := congrArg Prod.fst h
    have h2 : x.customer_name = k.2 := congrArg Prod.snd h
    exact ⟨h1, by rw [h2]⟩
  · rintro ⟨h1, _⟩
    have hr0u : r0.user_id = k.1 := congrArg Prod.fst hk0
    have hname : x.customer_name = r0.customer_name :=
      hfd x hx r0 hr0 (by rw [h1, ← hr0u])
    have h2 : x.customer_name = k.2 := by rw [hname]; exact congrArg Prod.snd hk0
    unfold csKey
    rw [Prod.ext_iff]
    exact ⟨h1, h2⟩

/-! ## The claims -/

/-- Claim C2 (counterexample to the claim as stated): a carts payload with
no "carts" key does not fail with any error; extract_from_api treats it as
an empty cart collection and returns the empty row sequence. -/
theorem C2_cex : extract_from_api ⟨none⟩ ⟨some []⟩ 0 = [] := rfl

/-- Claim C2 (amended): a payload lacking the "carts" key behaves exactly
like one whose "carts" key holds the empty list — both produce the empty
FlatRow sequence, and neither raises an error (extract_from_api is total;
carts_payload.get("carts", []) substitutes the empty list for a missing
key instead of raising). -/
theorem C2_missing_key_empty (up : UsersPayload) (today : Int) :
    extract_from_api ⟨none⟩ up today = [] ∧
      extract_from_api ⟨some []⟩ up today = [] :=
  ⟨rfl, rfl⟩

/-- Claim C9: the Normalizer is idempotent — running clean_and_transform
on its own output reproduces it row for row and field for field. -/
theorem C9_normalizer_idempotent (l : List Row) :
    clean_and_transform (clean_and_transform l) = clean_and_transform l :=
  ct_idem_list l

/-- Claim C8: every output row of the Normalizer has a non-null
product_id, and the output is exactly the per-row normalization of the
input rows whose product_id is non-null, in their original relative order
(rows with a null product_id are absent entirely; the filter is total, so
their exclusion raises no error). -/
theorem C8_product_id_filter (l : List Row) :
    (∀ r ∈ clean_and_transform l, r.product_id.isSome = true) ∧
      clean_and_transform l =
        (l.filter fun r => r.product_id.isSome).map ctRow := by
  constructor
  · intro r hr
    unfold clean_and_transform at hr
    exact (List.mem_filter.mp hr).2
  · exact ct_filter_comm l

/-- Claim C8 witness: on a two-row input whose second row lacks a
product_id, the surviving normalized row has a non-null product_id and the
output equals the filtered-then-normalized input. -/
theorem C8_witness :
    (ctRow c8aRow).product_id.isSome = true ∧
      clean_and_transform [c8aRow, c8bRow] =
        ([c8aRow, c8bRow].filter fun r => r.product_id.isSome).map ctRow :=
  ⟨(C8_product_id_filter [c8aRow, c8bRow]).1 (ctRow c8aRow)
      (List.mem_singleton.mpr rfl),
   (C8_product_id_filter [c8aRow, c8bRow]).2⟩

/-- Claim C6: for every row surviving normalization, total_amount equals
product_price * product_quantity (with null propagation) when
product_total is null or exactly zero, and equals product_total otherwise.
The three operand columns pass through the normalizer unchanged, so the
equation can be read off the output row itself. -/
theorem C6_total_amount_formula (l : List Row) :
    ∀ r ∈ clean_and_transform l,
      r.total_amount =
        if r.product_total = none ∨ r.product_total = some 0
        then optMul r.product_price r.product_quantity
        else r.product_total := by
  intro r hr
  obtain ⟨y, _, _, hyr⟩ := mem_ct l r hr
  subst hyr
  simp only [ctRow_total_amount, ctRow_product_total, ctRow_product_price,
    ctRow_product_quantity]

/-- Claim C6 witness: a concrete row with product_total equal to zero gets
total_amount 5 * 2 = 10. -/
theorem C6_witness :
    c6wOut.total_amount =
      if c6wOut.product_total = none ∨ c6wOut.product_total = some 0
      then optMul c6wOut.product_price c6wOut.product_quantity
      else c6wOut.product_total :=
  C6_total_amount_formula [c6wRow] c6wOut (List.mem_singleton.mpr rfl)

/-- Claim C3 (counterexample to the claim as stated): a retained row with
product_total null and product_price null gets a null total_amount (the
null-propagating product of a null price with any quantity is null), so
total_amount is not non-null for all null combinations of the operands. -/
theorem C3_cex :
    ((clean_and_transform [c3Row]).map fun r => r.total_amount) = [none] := by decide

/-- Claim C3 (amended): an output row's total_amount is non-null provided
that either product_total is non-null and nonzero, or product_price and
product_quantity are both non-null — the combinations the code leaves
null are exactly those where product_total is null or zero while price or
quantity is null. -/
theorem C3_total_amount_nonnull (l : List Row) :
    ∀ r ∈ clean_and_transform l,
      ((∃ t, r.product_total = some t ∧ t ≠ 0) ∨
        (r.product_price.isSome = true ∧ r.product_quantity.isSome = true)) →
      r.total_amount.isSome = true := by
  intro r hr h
  obtain ⟨y, _, _, hyr⟩ := mem_ct l r hr
  subst hyr
  simp only [ctRow_total_amount, ctRow_product_total, ctRow_product_price,
    ctRow_product_quantity] at h ⊢
  rcases h with ⟨t, ht, htz⟩ | ⟨hp, hq⟩
  · rw [if_neg]
    · rw [ht]
      rfl
    · rw [ht]
      simp [htz]
  · by_cases hc : y.product_total = none ∨ y.product_total = some 0
    · rw [if_pos hc]
      obtain ⟨a, ha⟩ := Option.isSome_iff_exists.mp hp
      obtain ⟨b, hb⟩ := Option.isSome_iff_exists.mp hq
      rw [ha, hb]
      rfl
    · rw [if_neg hc]
      rcases h0 : y.product_total with _ | t
      · exact absurd (Or.inl h0) hc
      · rfl

/-- Claim C3 witness: a row with non-null price 3 and quantity 2 (and null
product_total) has a non-null total_amount after normalization. -/
theorem C3_witness : c3wOut.total_amount.isSome = true :=
  C3_total_amount_nonnull [c3wRow] c3wOut (List.mem_singleton.mpr rfl)
    (Or.inr ⟨by decide, by decide⟩)

/-- Claim C1 (counterexample to the claim as stated): a row whose
customer_name is whitespace only — hence empty after trimming — keeps the
empty string after normalization instead of becoming "No Data": the source
trims and then fills nulls only, so an empty-after-trim name is never
replaced. -/
theorem C1_cex :
    ((clean_and_transform [c1Row]).map fun r => r.customer_name) = [some ""] ∧
      (some "" : Option String) ≠ some "No Data" :=
  ⟨by decide, by decide⟩

/-- Claim C1 (amended): the normalizer sends a null customer_name to the
literal "No Data" and a non-null one to its trimmed value — kept even when
trimming leaves the empty string; and every normalized row of a run whose
carts match no user has customer_name "No Data", because the flattener
leaves customer_name null exactly when the userId has no matching user. -/
theorem C1_customer_name_default :
    (∀ r : Row, (ctRow r).customer_name =
      some (match r.customer_name with
        | none => "No Data"
        | some s => pyStrip s)) ∧
    (∀ (cp : CartsPayload) (up : UsersPayload) (today : Int),
      (∀ c ∈ cp.carts.getD [], lookupUser (up.users.getD []) c.userId = none) →
      ∀ r ∈ clean_and_transform (extract_from_api cp up today),
        r.customer_name = some "No Data") := by
  constructor
  · exact ctRow_customer_name
  · intro cp up today hnm r hr
    obtain ⟨y, hy, _, hyr⟩ := mem_ct _ r hr
    obtain ⟨r0, hr0, hpost⟩ := mem_extract hy
    obtain ⟨c, hc, p, _, hmk⟩ := mem_rawRows hr0
    have hnone : y.customer_name = none := by
      rw [← hpost, postRow_customer_name, ← hmk, mkRawRow_customer_name,
        hnm c hc]
      rfl
    rw [← hyr, ctRow_customer_name, hnone]

/-- Claim C1 witness: the normalized row of a one-cart pipeline whose
userId 99 matches no user carries customer_name "No Data". -/
theorem C1_witness : c1wOut.customer_name = some "No Data" :=
  C1_customer_name_default.2 c1wCp c1wUp 0 (by decide) c1wOut
    (List.mem_singleton.mpr rfl)

/-- Claim C10: when the user lookup succeeds but firstName or lastName is
absent, the flattener writes the empty string (not null) into the
corresponding first_name/last_name field and the trimmed concatenation of
the two (each defaulted to "") into customer_name — the empty string when
both are absent; the normalizer's fill-null imputation then keeps such
empty-string fields — in particular a customer_name that is "" stays ""
and is not replaced by "No Data". -/
theorem C10_empty_names :
    (∀ (users : List UserJson) (c : CartJson) (p : ProductJson) (u : UserJson),
      lookupUser users c.userId = some u →
      u.firstName = none ∨ u.lastName = none →
        (u.firstName = none → (mkRawRow users c p).first_name = some "") ∧
        (u.lastName = none → (mkRawRow users c p).last_name = some "") ∧
        (mkRawRow users c p).customer_name =
          some (pyStrip (u.firstName.getD "" ++ " " ++ u.lastName.getD "")) ∧
        (u.firstName = none → u.lastName = none →
          (mkRawRow users c p).customer_name = some "")) ∧
    (∀ r : Row,
      (r.first_name = some "" → (ctRow r).first_name = some "") ∧
      (r.last_name = some "" → (ctRow r).last_name = some "") ∧
      (r.customer_name = some "" →
        (ctRow r).customer_name = some "" ∧
        (ctRow r).customer_name ≠ some "No Data")) := by
  constructor
  · intro users c p u hl _hor
    unfold mkRawRow
    rw [hl]
    refine ⟨?_, ?_, ?_, ?_⟩
    · intro hf
      simp only [hf]
      rfl
    · intro hln
      simp only [hln]
      rfl
    · rfl
    · intro hf hln
      simp only [hf, hln]
      show some (pyStrip ("" ++ " " ++ "")) = some ""
      decide
  · intro r
    refine ⟨?_, ?_, ?_⟩
    · intro h
      rw [ctRow_first_name, h]
      rfl
    · intro h
      rw [ctRow_last_name, h]
      rfl
    · intro h
      rw [ctRow_customer_name, h]
      exact ⟨by decide, by decide⟩

/-- Claim C10 witness: a matched user with firstName "Jo" and lastName
absent gets last_name "" and customer_name the trimmed concatenation
pyStrip "Jo " (that is, "Jo"); a matched user with both names absent gets
customer_name ""; and normalizing the latter row keeps customer_name
equal to "" rather than "No Data". -/
theorem C10_witness :
    (c10R2.last_name = some "" ∧
      c10R2.customer_name = some (pyStrip ("Jo" ++ " " ++ ""))) ∧
    c10R.customer_name = some "" ∧
    ((ctRow c10R).customer_name = some "" ∧
      (ctRow c10R).customer_name ≠ some "No Data") :=
  ⟨⟨(C10_empty_names.1 [c10U2] c10C2 c10P c10U2 (by decide) (Or.inr rfl)).2.1 rfl,
    (C10_empty_names.1 [c10U2] c10C2 c10P c10U2 (by decide) (Or.inr rfl)).2.2.1⟩,
   (C10_empty_names.1 [c10U] c10C c10P c10U (by decide) (Or.inl rfl)).2.2.2 rfl rfl,
   (C10_empty_names.2 c10R).2.2 (by decide)⟩

/-- Claim C5: on payloads whose carts all carry an id (Python's sorted()
is only defined there), every output row's order_date is
(today - (rank mod 30)) days rendered as an ISO 8601 string, where the
rank of the row's cart id is the number of distinct strictly smaller cart
ids among the flattened rows — exactly the zero-based position of the id
in the ascending sort of the distinct ids.  extract_from_api is a pure
function of the payloads and the today parameter, so the assignment is
identical across repeated runs on the same inputs. -/
theorem C5_order_date (cp : CartsPayload) (up : UsersPayload) (today : Int)
    (hids : ∀ c ∈ cp.carts.getD [], c.id.isSome = true) :
    ∀ r ∈ extract_from_api cp up today,
      r.order_date = r.cart_id.map fun x =>
        isoDate (today -
          ((((rawRows cp up).map fun s => s.cart_id).dedup.filter fun y =>
            ltOI y (some x)).length : Int) % 30) := by
  intro r hr
  obtain ⟨r0, hr0, hpost⟩ := mem_extract hr
  obtain ⟨c, hc, p, _, hmk⟩ := mem_rawRows hr0
  have hcid : r0.cart_id = c.id := by
    rw [← hmk]
    exact mkRawRow_cart_id _ _ _
  obtain ⟨x, hx⟩ := Option.isSome_iff_exists.mp (hids c hc)
  have hmem : r0.cart_id ∈ ((rawRows cp up).map fun s => s.cart_id).dedup :=
    List.mem_dedup.mpr (List.mem_map.mpr ⟨r0, hr0, rfl⟩)
  rw [← hpost, postRow_order_date, postRow_cart_id, dateFor_rank _ _ _ hmem,
    hcid, hx]
  rfl

/-- Claim C5 witness: carts fetched in order [5, 1, 3] with today = day
20000 (2024-10-04): the row of cart 5 has rank 2 among the ascending
distinct ids [1, 3, 5] and receives the date of day 19998 (2024-10-02),
matching the spec's worked example. -/
theorem C5_witness : c5Out.order_date = some (isoDate 19998) := by
  have h := C5_order_date c5Cp c5Up 20000 (by decide) c5Out
    (List.mem_cons_self _ _)
  rw [h]
  decide

/-- Claim C4 (counterexample to the claim as stated): the single row with
order_date "garbage" is not excluded from the daily_sales table — it forms
(and entirely accounts for) the table's one group, keyed by the null date
its failed parse produced. -/
theorem C4_cex :
    ((none : Option Int), sqlSum [c4Row.total_amount]) ∈ daily_sales [c4Row] ∧
      (daily_sales [c4Row]).length = 1 := by
  constructor
  · have h := daily_sales_key_mem (l := [c4Row]) (k := none) (by decide)
    have he : (([c4Row].filter fun r => parsedDate r == (none : Option Int)).map
        fun r => r.total_amount) = [c4Row.total_amount] := by decide
    rw [he] at h
    exact h
  · unfold daily_sales
    rw [(List.mergeSort_perm _ _).length_eq]
    decide

/-- Claim C4 (amended): a row whose order_date fails %Y-%m-%d parsing is
excluded from every group keyed by an actual date — each date-keyed entry
of daily_sales sums exactly the rows parsing to its date — but it is not
dropped from the table: all such rows are collected into one null-keyed
group (strict=False turns the parse failure into a null and SQL GROUP BY
groups the nulls together).  The aggregation is a total function of the
row list, so a malformed date never makes it fail. -/
theorem C4_daily_sales_null_group (l : List Row) :
    (∀ e ∈ daily_sales l, ∀ d : Int, e.1 = some d →
      e.2 = sqlSum ((l.filter fun r => parsedDate r == (some d : Option Int)).map
        fun r => r.total_amount)) ∧
    ((∃ r ∈ l, parsedDate r = none) →
      ((none : Option Int),
        sqlSum ((l.filter fun r => parsedDate r == (none : Option Int)).map
          fun r => r.total_amount)) ∈ daily_sales l) := by
  constructor
  · intro e he d hd
    have h := daily_sales_entry he
    rw [hd] at h
    exact h
  · rintro ⟨r, hr, hpd⟩
    exact daily_sales_key_mem (List.mem_dedup.mpr (List.mem_map.mpr ⟨r, hr, hpd⟩))

/-- Claim C4 witness: the well-formed date 2024-01-15 keys a group summing
exactly its row (total 3), and the "garbage" row of the counterexample
list lands in the null-keyed group. -/
theorem C4_witness :
    (some (3 : Rat) : Option Rat) =
      sqlSum (([c4gRow].filter fun r => parsedDate r == (some d4 : Option Int)).map
        fun r => r.total_amount) ∧
    ((none : Option Int),
      sqlSum (([c4Row].filter fun r => parsedDate r == (none : Option Int)).map
        fun r => r.total_amount)) ∈ daily_sales [c4Row] := by
  constructor
  · have hmem : ((some d4 : Option Int), (some (3 : Rat) : Option Rat)) ∈
        daily_sales [c4gRow] := by
      have h := daily_sales_key_mem (l := [c4gRow]) (k := some d4) (by decide)
      have he : (([c4gRow].filter fun r =>
          parsedDate r == (some d4 : Option Int)).map fun r => r.total_amount) =
          [some 3] := by decide
      rw [he] at h
      have hs : sqlSum [some (3 : Rat)] = some ([(3 : Rat)].sum) := rfl
      rw [List.sum_singleton] at hs
      rw [hs] at h
      exact h
    exact (C4_daily_sales_null_group [c4gRow]).1 (some d4, some 3) hmem d4 rfl
  · exact (C4_daily_sales_null_group [c4Row]).2
      ⟨c4Row, List.mem_singleton.mpr rfl, by decide⟩

/-- Claim C7: within the pipeline customer_name is a function of user_id
(part one); and on any input with that dependence — the Aggregator's input
always has it — the customer_summary table is grouped by (user_id as
customer_id, customer_name with "No Data" substituted for a null or empty
name): each output row's total_orders counts the distinct non-null cart
ids of the input rows carrying its key (not their row count), its
total_spent is the SQL sum of their total_amount, every input row is
represented by a group with its key, and the table is ordered descending
by total_spent (nulls last). -/
theorem C7_customer_summary :
    (∀ (cp : CartsPayload) (up : UsersPayload) (today : Int),
      csFD (clean_and_transform (extract_from_api cp up today))) ∧
    (∀ l : List Row, csFD l →
      (∀ e ∈ customer_summary l,
        e.total_orders =
          (((l.filter fun r => r.user_id == e.customer_id &&
              substName r.customer_name == e.customer_name).filterMap
            fun r => r.cart_id).dedup).length ∧
        e.total_spent =
          sqlSum ((l.filter fun r => r.user_id == e.customer_id &&
              substName r.customer_name == e.customer_name).map
            fun r => r.total_amount)) ∧
      (∀ r ∈ l, ∃ e ∈ customer_summary l,
        e.customer_id = r.user_id ∧
          e.customer_name = substName r.customer_name) ∧
      List.Pairwise (fun a b => spentDescLE a b = true) (customer_summary l)) := by
  refine ⟨pipeline_fd, fun l hfd => ⟨?_, ?_, customer_summary_sorted l⟩⟩
  · intro e he
    obtain ⟨k, hk, hke⟩ := customer_summary_entry he
    subst hke
    have hfe := csFilter_eq hfd hk
    constructor
    · show (((l.filter fun r => csKey r == k).filterMap
        fun r => r.cart_id).dedup).length = _
      rw [hfe]
      rfl
    · show sqlSum ((l.filter fun r => csKey r == k).map
        fun r => r.total_amount) = _
      rw [hfe]
      rfl
  · intro r hr
    exact ⟨csEntry l (csKey r),
      customer_summary_key_mem (List.mem_dedup.mpr (List.mem_map.mpr ⟨r, hr, rfl⟩)),
      rfl, rfl⟩

/-- Claim C7 witness: two rows of the same customer with distinct carts 1
and 2 form one group whose total_orders counts the two distinct carts and
whose total_spent is the SQL sum of the two amounts; the resulting
one-row table is descending by total_spent. -/
theorem C7_witness :
    (c7E.total_orders =
      (((c7l.filter fun r => r.user_id == c7E.customer_id &&
          substName r.customer_name == c7E.customer_name).filterMap
        fun r => r.cart_id).dedup).length ∧
     c7E.total_spent =
      sqlSum ((c7l.filter fun r => r.user_id == c7E.customer_id &&
          substName r.customer_name == c7E.customer_name).map
        fun r => r.total_amount)) ∧
    List.Pairwise (fun a b => spentDescLE a b = true) (customer_summary c7l) :=
  ⟨(C7_customer_summary.2 c7l (by unfold csFD; decide)).1 c7E
      (customer_summary_key_mem (by decide)),
   ((C7_customer_summary.2 c7l (by unfold csFD; decide)).2).2⟩

end ETL
